import Mathlib

/-!
# Verification of the poll service (`src/app/lib/actions/poll-actions.ts`)

Shallow embedding of the server actions `createPoll`, `getUserPolls`,
`submitVote`, `deletePoll` and `updatePoll`.  The Supabase storage backend is
modelled as an explicit `Storage` state holding the `polls`, `votes` and
`profiles` tables; each action is a pure function from the caller's identity,
its arguments and the storage state to a result record plus the new state.

Supabase conventions embedded here:
* `.single()` succeeds exactly when the filtered row set has exactly one row;
  otherwise it fails with error code `PGRST116` ("JSON object requested,
  multiple (or no) rows returned").
* `update(...).eq(...)` applies the partial update to every matching row and
  does not fail when no row matches.
* `delete().eq(...)` removes every matching row.
-/

namespace PollService

/-- A poll row of the `polls` table: `id`, `user_id` (owner), `question`,
`options`, `created_at`. -/
structure Poll where
  id : String
  user_id : String
  question : String
  options : List String
  created_at : Nat
deriving Repr, DecidableEq

/-- A vote row of the `votes` table: `poll_id`, `user_id` (absent for an
anonymous vote), `option_index`. -/
structure Vote where
  poll_id : String
  user_id : Option String
  option_index : Int
deriving Repr, DecidableEq

/-- A row of the `profiles` table carrying the role claim. -/
structure Profile where
  user_id : String
  role : String
deriving Repr, DecidableEq

/-- The authenticated caller as returned by `supabase.auth.getUser()`. -/
structure User where
  id : String
deriving Repr, DecidableEq

/-- The storage state: the three tables the poll actions touch. -/
structure Storage where
  polls : List Poll
  votes : List Vote
  profiles : List Profile
deriving Repr, DecidableEq

/-- A storage-level error as surfaced by supabase-js: a `code` and a
`message`. -/
structure SbError where
  code : String
  message : String
deriving Repr, DecidableEq

/-- `.single()` on a filtered row set: succeeds iff exactly one row matches,
otherwise fails with code `PGRST116`. -/
def singleRow {α : Type} (rows : List α) : Except SbError α :=
  match rows with
  | [r] => Except.ok r
  | _ => Except.error ⟨"PGRST116", "JSON object requested, multiple (or no) rows returned"⟩

/-- The votes of `pollId` attributed to the authenticated user `uid`
(the filter `eq poll_id, eq user_id` of the duplicate-vote pre-check). -/
def votesFor (st : Storage) (pollId uid : String) : List Vote :=
  st.votes.filter (fun v => v.poll_id = pollId ∧ v.user_id = some uid)

/-- The duplicate-vote pre-check query of `submitVote`:
`from("votes").select("id").eq("poll_id", pollId).eq("user_id", uid).single()`. -/
def findExistingVote (st : Storage) (pollId uid : String) : Except SbError Vote :=
  singleRow (votesFor st pollId uid)

/-- Modelled from the spec: the Poll Store (the external persistence
collaborator; its schema is not under `src/`) enforces a storage-level
uniqueness constraint on `(pollId, voterId)` for present `voterId` (§5),
anonymous votes being exempt, so a conflicting insert fails with a
`Conflict` error. A non-conflicting insert appends the row. -/
def insertVote (st : Storage) (v : Vote) : Except SbError Storage :=
  if v.user_id.isSome ∧ st.votes.any (fun w => w.poll_id = v.poll_id ∧ w.user_id = v.user_id)
  then Except.error ⟨"23505", "duplicate key value violates unique constraint"⟩
  else Except.ok { st with votes := st.votes ++ [v] }

/-- The result record of the actions that only report an error:
`{ error: string | null }`. -/
structure ActionResult where
  error : Option String
deriving Repr, DecidableEq

/-- The guard portion of `submitVote` (lines 120-134): for an authenticated
user, look for an existing vote; report the duplicate message if one is
found, report the storage message on an error other than `PGRST116`,
otherwise pass.  Anonymous callers skip the check. -/
def submitVoteCheck (st : Storage) (user : Option User) (pollId : String) : Option String :=
  match user with
  | none => none
  | some u =>
    match findExistingVote st pollId u.id with
    | Except.ok _ => some "You have already voted on this poll."
    | Except.error e => if e.code = "PGRST116" then none else some e.message

/-- `submitVote(pollId, optionIndex)` with the caller's identity made
explicit: duplicate pre-check for authenticated users, then insert the vote
with `user_id = user?.id ?? null`; the insert's error message is returned
verbatim on failure.  No bounds check on `optionIndex` appears in the
source. -/
def submitVote (st : Storage) (user : Option User) (pollId : String)
    (optionIndex : Int) : ActionResult × Storage :=
  match submitVoteCheck st user pollId with
  | some msg => (⟨some msg⟩, st)
  | none =>
    match insertVote st ⟨pollId, user.map User.id, optionIndex⟩ with
    | Except.error e => (⟨some e.message⟩, st)
    | Except.ok st' => (⟨none⟩, st')

/-- The form data of `createPoll`/`updatePoll`: `formData.get("question")`
(null when the field is missing) and `formData.getAll("options")`. -/
structure FormData where
  question : Option String
  options : List String
deriving Repr, DecidableEq

/-- `formData.getAll("options").filter(Boolean)`: on strings, `Boolean`
discards exactly the empty strings. -/
def filteredOptions (fd : FormData) : List String :=
  fd.options.filter (fun s => ¬ s = "")

/-- The shared input validation of `createPoll`/`updatePoll`
(`!question || options.length < 2` after filtering): fails when the
question is missing or empty, or fewer than two non-empty options remain. -/
def invalidInput (fd : FormData) : Bool :=
  match fd.question with
  | none => true
  | some q => q = "" ∨ (filteredOptions fd).length < 2

/-- The validation failure message shared by `createPoll` and `updatePoll`. -/
def invalidInputMsg : String := "Please provide a question and at least two options."

/-- `createPoll(formData)` with the identity explicit: validate the inputs
before anything else, then require a logged-in user, then insert the poll
with `user_id = user.id`.  `newId` and `now` stand for the id and
`created_at` the database generates for the inserted row. -/
def createPoll (st : Storage) (user : Option User) (fd : FormData)
    (newId : String) (now : Nat) : ActionResult × Storage :=
  if invalidInput fd then (⟨some invalidInputMsg⟩, st)
  else match user with
  | none => (⟨some "You must be logged in to create a poll."⟩, st)
  | some u =>
    (⟨none⟩, { st with
      polls := st.polls ++ [⟨newId, u.id, (fd.question.getD ""), filteredOptions fd, now⟩] })

/-- The result record of `getUserPolls`: `{ polls, error }`. -/
structure PollsResult where
  polls : List Poll
  error : Option String
deriving Repr, DecidableEq

/-- `getUserPolls()` with the identity explicit and the outcome of the
storage query abstracted: `storageFail = some e` stands for the select
failing with error `e`.  On a missing identity or a failed query the
result is `{ polls: [], error }`; on success the caller's polls ordered
newest-first with `error: null`. -/
def getUserPolls (st : Storage) (user : Option User)
    (storageFail : Option SbError) : PollsResult :=
  match user with
  | none => ⟨[], some "Not authenticated"⟩
  | some u =>
    match storageFail with
    | some e => ⟨[], some e.message⟩
    | none =>
      ⟨((st.polls.filter (fun p => p.user_id = u.id)).mergeSort
          (fun a b => decide (b.created_at ≤ a.created_at))), none⟩

/-- `.single()` of the poll fetch `from("polls").select(...).eq("id", id)`
used by `deletePoll` and `updatePoll`. -/
def getPollSingle (st : Storage) (id : String) : Except SbError Poll :=
  singleRow (st.polls.filter (fun p => p.id = id))

/-- The admin probe shared by `deletePoll` and `updatePoll`:
`from("profiles").select("role").eq("user_id", uid).single()`; the user
counts as admin iff the fetch succeeds and the role is `admin`. -/
def isAdminOf (st : Storage) (uid : String) : Bool :=
  match singleRow (st.profiles.filter (fun pr => pr.user_id = uid)) with
  | Except.ok profile => profile.role = "admin"
  | Except.error _ => false

/-- `deletePoll(id)` with the identity explicit: require a logged-in user,
fetch the poll (`single()`), allow the owner, otherwise probe the admin
role; on allow, `delete().eq("id", id)` removes every poll with that id. -/
def deletePoll (st : Storage) (user : Option User) (id : String) :
    ActionResult × Storage :=
  match user with
  | none => (⟨some "You must be logged in to delete a poll."⟩, st)
  | some u =>
    match getPollSingle st id with
    | Except.error _ =>
      (⟨some "Poll not found or you don\x27t have permission to delete it."⟩, st)
    | Except.ok poll =>
      if poll.user_id = u.id ∨ isAdminOf st u.id then
        (⟨none⟩, { st with polls := st.polls.filter (fun p => ¬ p.id = id) })
      else (⟨some "You are not authorized to delete this poll."⟩, st)

/-- `updatePoll(pollId, formData)` with the identity explicit: validate the
inputs first, then require a logged-in user, then fetch the poll
(`single()`), compute `isOwner`/`isAdmin` (the admin probe runs only for a
non-owner), deny unless owner or admin, then
`update({question, options}).eq("id", pollId)`, additionally scoped by
`.eq("user_id", user.id)` when the caller is not an admin. -/
def updatePoll (st : Storage) (user : Option User) (pollId : String)
    (fd : FormData) : ActionResult × Storage :=
  if invalidInput fd then (⟨some invalidInputMsg⟩, st)
  else match user with
  | none => (⟨some "You must be logged in to update a poll."⟩, st)
  | some u =>
    match getPollSingle st pollId with
    | Except.error _ =>
      (⟨some "Poll not found or you don\x27t have permission to update it."⟩, st)
    | Except.ok poll =>
      let isOwner : Bool := poll.user_id = u.id
      let isAdmin : Bool := if isOwner then false else isAdminOf st u.id
      if ¬ isOwner ∧ ¬ isAdmin then
        (⟨some "You are not authorized to update this poll."⟩, st)
      else
        (⟨none⟩, { st with
          polls := st.polls.map (fun p =>
            if p.id = pollId ∧ (isAdmin ∨ p.user_id = u.id) then
              { p with question := fd.question.getD "", options := filteredOptions fd }
            else p) })

/-- A sequence of anonymous `submitVote` calls on one poll: the per-call
error fields and the final storage state. -/
def anonVoteSeq (st : Storage) (pollId : String) : List Int → List (Option String) × Storage
  | [] => ([], st)
  | i :: is =>
    let r := submitVote st none pollId i
    let rest := anonVoteSeq r.snd pollId is
    (r.fst.error :: rest.fst, rest.snd)

/-- An anonymous `submitVote` always succeeds and appends the vote: the
duplicate check is skipped and the storage uniqueness constraint exempts
absent voter ids. -/
theorem submitVote_anon_eq (st : Storage) (pollId : String) (idx : Int) :
    submitVote st none pollId idx =
      (⟨none⟩, { st with votes := st.votes ++ [⟨pollId, none, idx⟩] }) := by
  simp [submitVote, submitVoteCheck, insertVote]

/-- On a successful `submitVote`, the new state is the old one with exactly
the vote `⟨pollId, user?.id, optionIndex⟩` appended. -/
theorem submitVote_ok_votes_aux (st st' : Storage) (user : Option User) (pollId : String)
    (idx : Int) (h : submitVote st user pollId idx = (⟨none⟩, st')) :
    st'.votes = st.votes ++ [⟨pollId, user.map User.id, idx⟩] := by
  unfold submitVote at h
  split at h
  · simp at h
  · split at h
    · simp at h
    · rename_i st'' heq
      unfold insertVote at heq
      split at heq
      · simp at heq
      · simp only [Except.ok.injEq] at heq
        simp only [Prod.mk.injEq, ActionResult.mk.injEq] at h
        rw [← h.2, ← heq]

/-- The result record of `submitVote` does not depend on the option index:
neither the duplicate pre-check nor the uniqueness constraint reads it. -/
theorem submitVote_fst_eq_aux (st : Storage) (user : Option User) (pollId : String) (i j : Int) :
    (submitVote st user pollId i).fst = (submitVote st user pollId j).fst := by
  unfold submitVote insertVote
  cases submitVoteCheck st user pollId with
  | some msg => rfl
  | none =>
    by_cases hcond : ((Option.map User.id user).isSome = true ∧
        (st.votes.any fun w => decide (w.poll_id = pollId ∧ w.user_id = Option.map User.id user)) = true)
    · rw [if_pos hcond, if_pos hcond]
    · rw [if_neg hcond, if_neg hcond]

/-- The shared validation fails exactly when the question is missing or
empty, or fewer than two non-empty options remain after filtering. -/
theorem invalidInput_iff (fd : FormData) :
    invalidInput fd = true ↔
      (fd.question = none ∨ fd.question = some "" ∨ (filteredOptions fd).length < 2) := by
  cases hq : fd.question with
  | none => simp [invalidInput, hq]
  | some q => simp [invalidInput, hq, filteredOptions]

/-- Mapping a question/options rewrite over the polls table, guarded by any
condition that forces the target id, preserves every other field of every
row and leaves rows with a different id entirely unchanged. -/
theorem forall2_update_map (l : List Poll) (pollId : String) (cond : Poll → Prop)
    [DecidablePred cond] (hcond : ∀ p, cond p → p.id = pollId)
    (q : String) (opts : List String) :
    List.Forall₂ (fun p pq : Poll =>
      pq.id = p.id ∧ pq.user_id = p.user_id ∧ pq.created_at = p.created_at ∧
      (¬ p.id = pollId → pq = p)) l
      (l.map (fun p => if cond p then { p with question := q, options := opts } else p)) := by
  induction l with
  | nil => exact List.Forall₂.nil
  | cons p ps ih =>
    refine List.Forall₂.cons ?_ ih
    dsimp only
    by_cases hc : cond p
    · rw [if_pos hc]
      exact ⟨rfl, rfl, rfl, fun hne => absurd (hcond p hc) hne⟩
    · rw [if_neg hc]
      exact ⟨rfl, rfl, rfl, fun _ => rfl⟩

/-- Claim C1: for a present identity `u` and a uniquely-existing poll `p`
(and, for `updatePoll`, inputs that pass validation so the flow reaches the
authorization check), both mutating operations pass their authorization
check and proceed to the storage write (result error `none`) iff `u` owns
the poll or holds the `admin` role in its unique `profiles` row; with the
identity absent both fail with their authentication message, the state
unchanged. -/
theorem write_authz_owner_or_admin (st : Storage) (u : User) (p : Poll) (fd : FormData)
    (hp : st.polls.filter (fun x => x.id = p.id) = [p])
    (hfd : invalidInput fd = false) :
    ((deletePoll st (some u) p.id).fst.error = none ↔
      (p.user_id = u.id ∨ isAdminOf st u.id = true)) ∧
    ((updatePoll st (some u) p.id fd).fst.error = none ↔
      (p.user_id = u.id ∨ isAdminOf st u.id = true)) ∧
    deletePoll st none p.id = (⟨some "You must be logged in to delete a poll."⟩, st) ∧
    updatePoll st none p.id fd =
      (⟨some "You must be logged in to update a poll."⟩, st) := by
  have hg : getPollSingle st p.id = Except.ok p := by
    simp [getPollSingle, hp, singleRow]
  refine ⟨?_, ?_, rfl, ?_⟩
  · by_cases hown : p.user_id = u.id <;> by_cases hadm : isAdminOf st u.id = true <;>
      simp [deletePoll, hg, hown, hadm]
  · by_cases hown : p.user_id = u.id <;> by_cases hadm : isAdminOf st u.id = true <;>
      simp [updatePoll, hg, hfd, hown, hadm]
  · simp [updatePoll, hfd]

/-- Witness for `write_authz_owner_or_admin`: the owner on a one-poll state. -/
theorem write_authz_owner_or_admin_witness :
    ((deletePoll (Storage.mk [Poll.mk "p1" "u1" "Q" ["A", "B"] 0] [] [])
        (some ⟨"u1"⟩) "p1").fst.error = none ↔
      (("u1" : String) = "u1" ∨
        isAdminOf (Storage.mk [Poll.mk "p1" "u1" "Q" ["A", "B"] 0] [] []) "u1" = true)) ∧
    ((updatePoll (Storage.mk [Poll.mk "p1" "u1" "Q" ["A", "B"] 0] [] [])
        (some ⟨"u1"⟩) "p1" ⟨some "Q2", ["C", "D"]⟩).fst.error = none ↔
      (("u1" : String) = "u1" ∨
        isAdminOf (Storage.mk [Poll.mk "p1" "u1" "Q" ["A", "B"] 0] [] []) "u1" = true)) ∧
    deletePoll (Storage.mk [Poll.mk "p1" "u1" "Q" ["A", "B"] 0] [] []) none "p1" =
      (⟨some "You must be logged in to delete a poll."⟩,
        Storage.mk [Poll.mk "p1" "u1" "Q" ["A", "B"] 0] [] []) ∧
    updatePoll (Storage.mk [Poll.mk "p1" "u1" "Q" ["A", "B"] 0] [] []) none "p1"
        ⟨some "Q2", ["C", "D"]⟩ =
      (⟨some "You must be logged in to update a poll."⟩,
        Storage.mk [Poll.mk "p1" "u1" "Q" ["A", "B"] 0] [] []) :=
  write_authz_owner_or_admin (Storage.mk [Poll.mk "p1" "u1" "Q" ["A", "B"] 0] [] [])
    ⟨"u1"⟩ (Poll.mk "p1" "u1" "Q" ["A", "B"] 0) ⟨some "Q2", ["C", "D"]⟩
    (by decide) (by decide)

/-- Claim C2 counterexample: on a poll with 2 options, an anonymous
`submitVote` with the out-of-bounds index 5 (no other denial reason applies)
succeeds and stores the vote, refuting "submitVote succeeds iff
0 <= optionIndex < n". -/
theorem submitVote_no_bounds_check_cex :
    (Poll.mk "p1" "u1" "Q" ["Red", "Blue"] 0).options.length = 2 ∧
    ¬ ((5 : Int) < 2) ∧
    (submitVote (Storage.mk [Poll.mk "p1" "u1" "Q" ["Red", "Blue"] 0] [] [])
      none "p1" 5).fst.error = none ∧
    (submitVote (Storage.mk [Poll.mk "p1" "u1" "Q" ["Red", "Blue"] 0] [] [])
      none "p1" 5).snd.votes = [⟨"p1", none, 5⟩] := by
  decide

/-- Claim C2 amended: `submitVote` performs no bounds check on
`optionIndex` — its result record is identical for every option index, and
on success the vote is stored with the given index as-is, in or out of
bounds. -/
theorem submitVote_outcome_ignores_optionIndex (st : Storage) (user : Option User)
    (pollId : String) (i j : Int) :
    (submitVote st user pollId i).fst = (submitVote st user pollId j).fst ∧
    (∀ st', submitVote st user pollId i = (⟨none⟩, st') →
      st'.votes = st.votes ++ [⟨pollId, user.map User.id, i⟩]) :=
  ⟨submitVote_fst_eq_aux st user pollId i j,
   fun st' h => submitVote_ok_votes_aux st st' user pollId i h⟩

/-- Witness for `submitVote_outcome_ignores_optionIndex` at indices 5 and 0. -/
theorem submitVote_outcome_ignores_optionIndex_witness :
    ((submitVote (Storage.mk [] [] []) none "p1" 5).fst =
      (submitVote (Storage.mk [] [] []) none "p1" 0).fst) ∧
    (Storage.mk [] [⟨"p1", none, 5⟩] []).votes =
      (Storage.mk [] [] []).votes ++ [⟨"p1", (none : Option User).map User.id, 5⟩] :=
  ⟨(submitVote_outcome_ignores_optionIndex (Storage.mk [] [] []) none "p1" 5 0).1,
   (submitVote_outcome_ignores_optionIndex (Storage.mk [] [] []) none "p1" 5 0).2
     (Storage.mk [] [⟨"p1", none, 5⟩] []) (by rfl)⟩

/-- Claim C3: when storage holds exactly one vote for the pair
`(pollId, uid)` (which is all the storage-level uniqueness invariant
allows), a subsequent `submitVote` by that authenticated user, at any option
index, fails with the duplicate-vote message, leaves storage unchanged, and
storage still holds exactly one vote for the pair. -/
theorem submitVote_duplicate_rejected (st : Storage) (pollId uid : String) (v : Vote)
    (idx : Int) (h : votesFor st pollId uid = [v]) :
    submitVote st (some ⟨uid⟩) pollId idx =
      (⟨some "You have already voted on this poll."⟩, st) ∧
    (votesFor (submitVote st (some ⟨uid⟩) pollId idx).snd pollId uid).length = 1 := by
  have hc : submitVoteCheck st (some ⟨uid⟩) pollId =
      some "You have already voted on this poll." := by
    simp [submitVoteCheck, findExistingVote, h, singleRow]
  refine ⟨?_, ?_⟩
  · simp [submitVote, hc]
  · simp [submitVote, hc, h]

/-- Witness for `submitVote_duplicate_rejected` at a concrete one-vote state. -/
theorem submitVote_duplicate_rejected_witness :
    submitVote (Storage.mk [] [⟨"p1", some "u1", 0⟩] []) (some ⟨"u1"⟩) "p1" 1 =
      (⟨some "You have already voted on this poll."⟩,
        Storage.mk [] [⟨"p1", some "u1", 0⟩] []) ∧
    (votesFor (submitVote (Storage.mk [] [⟨"p1", some "u1", 0⟩] [])
        (some ⟨"u1"⟩) "p1" 1).snd "p1" "u1").length = 1 :=
  submitVote_duplicate_rejected (Storage.mk [] [⟨"p1", some "u1", 0⟩] []) "p1" "u1"
    ⟨"p1", some "u1", 0⟩ 1 (by decide)

/-- Claim C4 counterexample: in a state where the `.single()` pre-check
passes (two rows for the pair make it fail with `PGRST116`, which the code
treats as "no prior vote") but the insert hits the storage uniqueness
Conflict, `submitVote` returns the raw conflict message, not the
DuplicateVote outcome "You have already voted on this poll." that the
pre-check produces. -/
theorem submitVote_conflict_not_mapped_cex :
    submitVoteCheck (Storage.mk [] [⟨"p1", some "u1", 0⟩, ⟨"p1", some "u1", 1⟩] [])
      (some ⟨"u1"⟩) "p1" = none ∧
    insertVote (Storage.mk [] [⟨"p1", some "u1", 0⟩, ⟨"p1", some "u1", 1⟩] [])
      ⟨"p1", some "u1", 2⟩ =
      Except.error ⟨"23505", "duplicate key value violates unique constraint"⟩ ∧
    (submitVote (Storage.mk [] [⟨"p1", some "u1", 0⟩, ⟨"p1", some "u1", 1⟩] [])
      (some ⟨"u1"⟩) "p1" 2).fst.error =
      some "duplicate key value violates unique constraint" ∧
    ¬ (("duplicate key value violates unique constraint" : String) =
       "You have already voted on this poll.") := by
  refine ⟨rfl, rfl, rfl, ?_⟩
  decide

/-- Claim C4 amended: when the pre-check passes and the storage insert fails
(in particular with the uniqueness Conflict), `submitVote` propagates the
storage error message verbatim to the caller instead of mapping it to the
DuplicateVote outcome. -/
theorem submitVote_insert_error_verbatim (st : Storage) (user : Option User)
    (pollId : String) (idx : Int) (e : SbError)
    (hc : submitVoteCheck st user pollId = none)
    (hi : insertVote st ⟨pollId, user.map User.id, idx⟩ = Except.error e) :
    submitVote st user pollId idx = (⟨some e.message⟩, st) := by
  simp [submitVote, hc, hi]

/-- Witness for `submitVote_insert_error_verbatim` at a concrete conflicting
state. -/
theorem submitVote_insert_error_verbatim_witness :
    submitVote (Storage.mk [] [⟨"p2", some "u1", 0⟩, ⟨"p2", some "u1", 1⟩] [])
      (some ⟨"u1"⟩) "p2" 0 =
      (⟨some "duplicate key value violates unique constraint"⟩,
        Storage.mk [] [⟨"p2", some "u1", 0⟩, ⟨"p2", some "u1", 1⟩] []) :=
  submitVote_insert_error_verbatim
    (Storage.mk [] [⟨"p2", some "u1", 0⟩, ⟨"p2", some "u1", 1⟩] [])
    (some ⟨"u1"⟩) "p2" 0
    ⟨"23505", "duplicate key value violates unique constraint"⟩
    (by rfl) (by rfl)

/-- Claim C5: an anonymous caller (identity absent) skips the duplicate-vote
check entirely (the check is `none`), succeeds and inserts the vote, and any
sequence of anonymous `submitVote` calls on the same poll succeeds at every
step — anonymous votes are exempt from the per-voter uniqueness constraint
(the login requirement is commented out in the source, i.e. the default
`requireAuthToVote = false`). -/
theorem submitVote_anonymous_exempt (st : Storage) (pollId : String) (idx : Int)
    (idxs : List Int) :
    submitVoteCheck st none pollId = none ∧
    submitVote st none pollId idx =
      (⟨none⟩, { st with votes := st.votes ++ [⟨pollId, none, idx⟩] }) ∧
    (anonVoteSeq st pollId idxs).fst = idxs.map (fun _ => (none : Option String)) := by
  refine ⟨rfl, submitVote_anon_eq st pollId idx, ?_⟩
  induction idxs generalizing st with
  | nil => rfl
  | cons i is ih => simp [anonVoteSeq, submitVote_anon_eq, ih]

/-- Claim C6: `createPoll` fails with the InvalidInput message, leaving
storage unchanged, whenever the question is missing or empty or fewer than
two non-blank options remain; with valid inputs and no identity it fails
with the authentication message, state unchanged; with valid inputs and a
present identity it succeeds and the owner id of the stored poll is the id
of the caller. -/
theorem createPoll_contract (st : Storage) (fd : FormData) (newId : String) (now : Nat) :
    ((fd.question = none ∨ fd.question = some "" ∨ (filteredOptions fd).length < 2) →
      ∀ user, createPoll st user fd newId now = (⟨some invalidInputMsg⟩, st)) ∧
    (¬ (fd.question = none ∨ fd.question = some "" ∨ (filteredOptions fd).length < 2) →
      createPoll st none fd newId now =
        (⟨some "You must be logged in to create a poll."⟩, st)) ∧
    (∀ u, ¬ (fd.question = none ∨ fd.question = some "" ∨ (filteredOptions fd).length < 2) →
      createPoll st (some u) fd newId now =
        (⟨none⟩, { st with
          polls := st.polls ++ [⟨newId, u.id, fd.question.getD "", filteredOptions fd, now⟩] })) := by
  refine ⟨fun hbad user => ?_, fun hok => ?_, fun u hok => ?_⟩
  · have hb : invalidInput fd = true := (invalidInput_iff fd).mpr hbad
    simp [createPoll, hb]
  · have hb : invalidInput fd = false := by
      cases hinv : invalidInput fd
      · rfl
      · exact absurd ((invalidInput_iff fd).mp hinv) hok
    simp [createPoll, hb]
  · have hb : invalidInput fd = false := by
      cases hinv : invalidInput fd
      · rfl
      · exact absurd ((invalidInput_iff fd).mp hinv) hok
    simp [createPoll, hb]

/-- Witness for `createPoll_contract`: a single-option create fails with the
validation message; a valid create stores the caller as owner. -/
theorem createPoll_contract_witness :
    createPoll (Storage.mk [] [] []) (some ⟨"u1"⟩) ⟨some "Q", ["OnlyOne"]⟩ "p9" 7 =
      (⟨some invalidInputMsg⟩, Storage.mk [] [] []) ∧
    createPoll (Storage.mk [] [] []) (some ⟨"u1"⟩) ⟨some "Q", ["A", "B"]⟩ "p9" 7 =
      (⟨none⟩, Storage.mk [Poll.mk "p9" "u1" "Q" ["A", "B"] 7] [] []) :=
  ⟨(createPoll_contract (Storage.mk [] [] []) ⟨some "Q", ["OnlyOne"]⟩ "p9" 7).1
      (by decide) (some ⟨"u1"⟩),
   (createPoll_contract (Storage.mk [] [] []) ⟨some "Q", ["A", "B"]⟩ "p9" 7).2.2
      ⟨"u1"⟩ (by decide)⟩

/-- Claim C7 counterexample: with a poll id absent from storage but invalid
form inputs, `updatePoll` reports the validation message, not NotFound — the
input validation runs before the poll fetch and the authorization check. -/
theorem updatePoll_validates_first_cex :
    (Storage.mk [] [] []).polls.filter (fun p => p.id = "p1") = [] ∧
    (updatePoll (Storage.mk [] [] []) (some ⟨"u1"⟩) "p1" ⟨none, []⟩).fst.error =
      some invalidInputMsg ∧
    ¬ (invalidInputMsg = "Poll not found or you don\x27t have permission to update it.") := by
  refine ⟨rfl, rfl, ?_⟩
  decide

/-- Claim C7 amended: `updatePoll` validates the new question/options before
fetching the target; when the inputs pass validation and the identity is
present, a poll id matching no stored poll yields the NotFound message with
the state unchanged. -/
theorem updatePoll_notfound_when_inputs_valid (st : Storage) (u : User) (pollId : String)
    (fd : FormData) (hfd : invalidInput fd = false)
    (hnone : st.polls.filter (fun p => p.id = pollId) = []) :
    updatePoll st (some u) pollId fd =
      (⟨some "Poll not found or you don\x27t have permission to update it."⟩, st) := by
  simp [updatePoll, hfd, getPollSingle, hnone, singleRow]

/-- Witness for `updatePoll_notfound_when_inputs_valid` on empty storage. -/
theorem updatePoll_notfound_when_inputs_valid_witness :
    updatePoll (Storage.mk [] [] []) (some ⟨"u1"⟩) "p1" ⟨some "Q", ["A", "B"]⟩ =
      (⟨some "Poll not found or you don\x27t have permission to update it."⟩,
        Storage.mk [] [] []) :=
  updatePoll_notfound_when_inputs_valid (Storage.mk [] [] []) ⟨"u1"⟩ "p1"
    ⟨some "Q", ["A", "B"]⟩ (by decide) (by decide)

/-- Claim C8: a successful `updatePoll` touches nothing but the `question`
and `options` fields of polls whose id is the target id: the votes and
profiles tables are unchanged, every poll keeps its `id`, `user_id` (owner)
and `created_at`, and every poll whose id differs from the target is
unchanged entirely. -/
theorem updatePoll_frame (st st' : Storage) (user : Option User) (pollId : String)
    (fd : FormData) (h : updatePoll st user pollId fd = (⟨none⟩, st')) :
    st'.votes = st.votes ∧ st'.profiles = st.profiles ∧
    List.Forall₂ (fun p pq : Poll =>
      pq.id = p.id ∧ pq.user_id = p.user_id ∧ pq.created_at = p.created_at ∧
      (¬ p.id = pollId → pq = p)) st.polls st'.polls := by
  unfold updatePoll at h
  split at h
  · simp at h
  · split at h
    · simp at h
    · split at h
      · simp at h
      · dsimp only at h
        split at h
        · rename_i howner
          rw [if_neg (fun hcon => hcon.1 howner)] at h
          simp only [Prod.mk.injEq, ActionResult.mk.injEq] at h
          obtain ⟨-, h2⟩ := h
          subst h2
          exact ⟨rfl, rfl, forall2_update_map st.polls pollId _ (fun p hp => hp.1) _ _⟩
        · rename_i hnotowner
          split at h
          · simp at h
          · simp only [Prod.mk.injEq, ActionResult.mk.injEq] at h
            obtain ⟨-, h2⟩ := h
            subst h2
            exact ⟨rfl, rfl, forall2_update_map st.polls pollId _ (fun p hp => hp.1) _ _⟩

/-- Witness for `updatePoll_frame`: a successful update by the owner on a
one-poll state. -/
theorem updatePoll_frame_witness :
    (Storage.mk [Poll.mk "p1" "u1" "N" ["X", "Y"] 5] [] []).votes =
      (Storage.mk [Poll.mk "p1" "u1" "Q" ["A", "B"] 5] [] []).votes ∧
    (Storage.mk [Poll.mk "p1" "u1" "N" ["X", "Y"] 5] [] []).profiles =
      (Storage.mk [Poll.mk "p1" "u1" "Q" ["A", "B"] 5] [] []).profiles ∧
    List.Forall₂ (fun p pq : Poll =>
      pq.id = p.id ∧ pq.user_id = p.user_id ∧ pq.created_at = p.created_at ∧
      (¬ p.id = "p1" → pq = p))
      (Storage.mk [Poll.mk "p1" "u1" "Q" ["A", "B"] 5] [] []).polls
      (Storage.mk [Poll.mk "p1" "u1" "N" ["X", "Y"] 5] [] []).polls :=
  updatePoll_frame (Storage.mk [Poll.mk "p1" "u1" "Q" ["A", "B"] 5] [] [])
    (Storage.mk [Poll.mk "p1" "u1" "N" ["X", "Y"] 5] [] [])
    (some ⟨"u1"⟩) "p1" ⟨some "N", ["X", "Y"]⟩ (by rfl)

/-- Claim C9: every vote stored by a successful `submitVote` is attributed
to the caller itself: the `user_id` of the inserted row is
`user?.id ?? null`, i.e. the id of the authenticated caller when an
identity is present and `null` when the caller is anonymous; no vote with
the id of a different user can be stored. -/
theorem submitVote_attributes_caller (st st' : Storage) (user : Option User)
    (pollId : String) (idx : Int)
    (h : submitVote st user pollId idx = (⟨none⟩, st')) :
    st'.votes = st.votes ++ [⟨pollId, user.map User.id, idx⟩] :=
  submitVote_ok_votes_aux st st' user pollId idx h

/-- Witness for `submitVote_attributes_caller` at a concrete anonymous call. -/
theorem submitVote_attributes_caller_witness :
    (Storage.mk [] [⟨"p1", none, 0⟩] []).votes =
      (Storage.mk [] [] []).votes ++ [⟨"p1", (none : Option User).map User.id, 0⟩] :=
  submitVote_attributes_caller (Storage.mk [] [] []) (Storage.mk [] [⟨"p1", none, 0⟩] [])
    none "p1" 0 (by rfl)

/-- Claim C10: `getUserPolls` never pairs poll data with an error: whenever
the error field is non-null the polls field is the empty list (identity
absent or storage failure), and on the success path (identity present,
query succeeded) the error field is null. -/
theorem getUserPolls_shape (st : Storage) (user : Option User) (f : Option SbError) :
    (¬ (getUserPolls st user f).error = none → (getUserPolls st user f).polls = []) ∧
    (∀ u, user = some u → f = none → (getUserPolls st user f).error = none) := by
  cases user with
  | none => exact ⟨fun _ => rfl, fun u hu => by simp at hu⟩
  | some u =>
    cases f with
    | none => exact ⟨fun h => absurd rfl h, fun _ _ _ => rfl⟩
    | some e => exact ⟨fun _ => rfl, fun u' hu hf => by simp at hf⟩

/-- Witness for `getUserPolls_shape`: an unauthenticated call yields the
empty list; an authenticated successful call yields a null error. -/
theorem getUserPolls_shape_witness :
    (getUserPolls (Storage.mk [] [] []) none none).polls = [] ∧
    (getUserPolls (Storage.mk [] [] []) (some ⟨"u1"⟩) none).error = none :=
  ⟨(getUserPolls_shape (Storage.mk [] [] []) none none).1 (by decide),
   (getUserPolls_shape (Storage.mk [] [] []) (some ⟨"u1"⟩) none).2 ⟨"u1"⟩ rfl rfl⟩

end PollService
